import Mathlib

/-!
# Verification of the RampenSau MCP wrapper (`rampensau-mcp-spec.js`)

Shallow embedding of the MCP tool-registry module: the zod parameter
schemas (validation, defaults, transforms, optionality), the tool
handlers (`execute` functions), and the response-envelope wrapper
`asResult`.  JavaScript numbers are modelled as rationals (`ℚ`), raw
JSON/JS values as the inductive `JSValue`, fallible validation as
`Except String`.  The external RampenSau color engine is an opaque
collaborator; handlers are parameterised over a record of engine
primitives (`Engine`) so theorems quantify over every possible engine
behaviour.

zod semantics captured by the combinators below (zod v3):
* `z.object(shape).parse` reads exactly the declared keys from the raw
  object (a missing key reads as `undefined`) and, in its default
  "strip" mode, ignores and drops unknown keys;
* `.default(d)` (`ZodDefault`) substitutes `d` when the incoming value
  is `undefined`, then runs the inner schema;
* `.optional()` (`ZodOptional`) short-circuits: an `undefined` input
  returns `undefined` immediately, without running the wrapped schema
  (so a `.default(...)` or `.transform(...)` underneath it never fires
  on a missing field);
* `.transform(f)` (`ZodEffects`) applies `f` after the inner schema
  succeeds;
* `.refine(p, msg)` fails with `msg` when `p` is false.

Error messages are abbreviated; the claims under verification only
distinguish success from failure, never exact message texts, except for
the `utils` tool's unknown-function error which is modelled verbatim.
-/

/-- A JavaScript runtime value, as seen by the wrapper: `undefined`,
`null`, booleans, numbers (modelled as `ℚ`), strings, arrays, and
plain objects (ordered key/value lists; lookup takes the first
occurrence of a key). -/
inductive JSValue where
  | undefined : JSValue
  | null : JSValue
  | bool : Bool → JSValue
  | num : ℚ → JSValue
  | str : String → JSValue
  | arr : List JSValue → JSValue
  | obj : List (String × JSValue) → JSValue

/-- JavaScript property access `o[k]` on an object's field list: the
first binding of `k`, or `undefined` when the key is absent. -/
def objGet (fs : List (String × JSValue)) (k : String) : JSValue :=
  match fs with
  | [] => .undefined
  | (k', v) :: rest => if k' = k then v else objGet rest k

/-- The result type of running one zod schema: a canonical value or a
validation error. -/
abbrev JParse (α : Type) := JSValue → Except String α

/-- `z.number()`: accepts a JS number, rejects every other shape. -/
def zNum : JParse ℚ := fun v =>
  match v with
  | .num q => .ok q
  | _ => .error "Expected number"

/-- A refinement / built-in check chained onto a schema (`.min`,
`.max`, `.int`, `.refine`): the inner schema must succeed and the
boolean predicate must hold on its output. -/
def zCheck {α : Type} (q : JParse α) (ck : α → Bool) (msg : String) : JParse α := fun v =>
  match q v with
  | .ok a => if ck a then .ok a else .error msg
  | .error e => .error e

/-- `.transform(f)` (`ZodEffects`): post-compose a pure function onto a
successful parse. -/
def zMap {α β : Type} (f : α → β) (q : JParse α) : JParse β := fun v =>
  (q v).map f

/-- `.default(d)` (`ZodDefault`): an `undefined` input is replaced by
the declared default value `d`, which is then parsed by the inner
schema; any other input goes to the inner schema unchanged. -/
def zDefault {α : Type} (d : JSValue) (q : JParse α) : JParse α := fun v =>
  match v with
  | .undefined => q d
  | _ => q v

/-- `.optional()` (`ZodOptional`): an `undefined` input short-circuits
to `undefined` (here `none`) without running the wrapped schema; any
other input is parsed by the wrapped schema. -/
def zOptional {α : Type} (q : JParse α) : JParse (Option α) := fun v =>
  match v with
  | .undefined => .ok none
  | _ => (q v).map some

/-- `z.enum([...])`: accepts exactly the listed strings. -/
def zEnum (vals : List String) : JParse String := fun v =>
  match v with
  | .str s => if s ∈ vals then .ok s else .error "Invalid enum value"
  | _ => .error "Expected string"

/-- `z.array(inner)`: a JS array whose every element parses under
`inner`. -/
def zArrayOf {α : Type} (q : JParse α) : JParse (List α) := fun v =>
  match v with
  | .arr xs => xs.mapM q
  | _ => .error "Expected array"

/-- `z.tuple([a, b])`: a JS array of exactly two elements, parsed
component-wise. -/
def zTuple2 {α β : Type} (qa : JParse α) (qb : JParse β) : JParse (α × β) := fun v =>
  match v with
  | .arr [x, y] => do
      let a ← qa x
      let b ← qb y
      .ok (a, b)
  | .arr _ => .error "Expected tuple of length 2"
  | _ => .error "Expected array"

/-- `norm01` from the source: `z.number().refine(v => v >= 0 && v <=
100, 'must be between 0 and 100').transform(v => (v > 1 ? v / 100 :
v))` — accepts a fraction (0–1) or a percentage (0–100) and yields a
fraction. -/
def norm01 : JParse ℚ :=
  zMap (fun v => if v > 1 then v / 100 else v)
    (zCheck zNum (fun v => decide (0 ≤ v) && decide (v ≤ 100)) "must be between 0 and 100")

/-- The two-space indentation gap at nesting depth `n`, as produced by
`JSON.stringify(_, null, 2)`. -/
def indentOf (n : Nat) : String :=
  String.join (List.replicate n "  ")

/-- JSON string quoting for `JSON.stringify`: wrap in double quotes and
escape quote, backslash and the common control characters.  (Control
characters other than the listed ones are left unescaped in this
model; none of the claims depends on their spelling.) -/
def quoteChar (c : Char) : String :=
  if c = '"' then "\\\""
  else if c = '\\' then "\\\\"
  else if c = '\n' then "\\n"
  else if c = '\t' then "\\t"
  else if c = '\r' then "\\r"
  else String.singleton c

/-- Quote a whole string as a JSON string literal. -/
def quoteJSON (s : String) : String :=
  "\"" ++ String.join (s.data.map quoteChar) ++ "\""

/-- Rendering of a JS number for serialization.  JavaScript prints the
shortest float representation; this model prints the integer part when
the rational is integral and `num/den` otherwise.  Deterministic and
injective; no claim constrains the exact digit string. -/
def numRepr (q : ℚ) : String :=
  if q.den = 1 then toString q.num else toString q.num ++ "/" ++ toString q.den

/-- Glue an indented multi-line JSON composite together, exactly as
`JSON.stringify` does with a two-space gap: an empty composite prints
as `opener ++ closer`; otherwise each part sits on its own line at
depth `d + 1` and the closer at depth `d`. -/
def joinParts (d : Nat) (opener closer : String) (parts : List String) : String :=
  if parts.isEmpty then opener ++ closer
  else
    opener ++ "\n" ++ indentOf (d + 1) ++
      String.intercalate (",\n" ++ indentOf (d + 1)) parts ++
      "\n" ++ indentOf d ++ closer

mutual

/-- `JSON.stringify(v, null, 2)` at nesting depth `d` (`d = 0` at the
top level).  Returns `none` exactly where `JSON.stringify` returns
`undefined` (an `undefined` input). -/
def serVal (d : Nat) : JSValue → Option String
  | .undefined => none
  | .null => some "null"
  | .bool b => some (cond b "true" "false")
  | .num q => some (numRepr q)
  | .str s => some (quoteJSON s)
  | .arr xs => some (joinParts d "[" "]" (serList (d + 1) xs))
  | .obj fs => some (joinParts d "\x7b" "\x7d" (serFields (d + 1) fs))

/-- Array elements under `JSON.stringify`: an element that serializes
to `undefined` prints as `null`. -/
def serList (d : Nat) : List JSValue → List String
  | [] => []
  | x :: xs => ((serVal d x).getD "null") :: serList d xs

/-- Object members under `JSON.stringify`: a member whose value
serializes to `undefined` is dropped. -/
def serFields (d : Nat) : List (String × JSValue) → List String
  | [] => []
  | (k, v) :: fs =>
    match serVal d v with
    | none => serFields d fs
    | some s => (quoteJSON k ++ ": " ++ s) :: serFields d fs

end

/-- `JSON.stringify(v, null, 2)` as a JS value: a string, except that
serializing `undefined` yields `undefined`. -/
def jsonStringifyJS (v : JSValue) : JSValue :=
  match serVal 0 v with
  | some s => .str s
  | none => .undefined

/-- `asResult` from the source: wrap a handler result in the MCP
response envelope `{ content: [ { type: 'text', text } ] }`, where
`text` is the result itself when it is a string and
`JSON.stringify(result, null, 2)` otherwise. -/
def asResult (data : JSValue) : JSValue :=
  .obj [("content", .arr [
    .obj [("type", .str "text"),
          ("text", match data with
                   | .str s => .str s
                   | d => jsonStringifyJS d)]])]

/-- Canonical arguments of the `generate` tool after `z.object({
...RampBase, ...CurveExtra, ...FormatOpt }).parse`:  `total` is always
present (its `.default(10)` is not wrapped in `.optional()`), every
other field is `Option`-valued because its schema ends in
`.optional()`. -/
structure GenerateArgs where
  total : ℚ
  hStart : Option ℚ
  hStartCenter : Option ℚ
  hCycles : Option ℚ
  hueList : Option (List ℚ)
  sRange : Option (ℚ × ℚ)
  lRange : Option (ℚ × ℚ)
  curveMethod : Option String
  curveAccent : Option ℚ
  format : Option String
deriving DecidableEq

/-- `total: z.number().int().min(3).default(10)`. -/
def pTotal : JParse ℚ :=
  zDefault (.num 10)
    (zCheck zNum (fun q => q.den == 1 && decide (3 ≤ q)) "Expected integer >= 3")

/-- `hStart: z.number().min(0).max(360).optional()`. -/
def pHStart : JParse (Option ℚ) :=
  zOptional (zCheck zNum (fun q => decide (0 ≤ q) && decide (q ≤ 360)) "Expected 0..360")

/-- `hStartCenter: norm01.optional()`. -/
def pHStartCenter : JParse (Option ℚ) :=
  zOptional norm01

/-- `hCycles: z.number().min(1).default(1).optional()` — note that the
`.optional()` wraps the `.default(1)`. -/
def pHCycles : JParse (Option ℚ) :=
  zOptional (zDefault (.num 1) (zCheck zNum (fun q => decide (1 ≤ q)) "Expected >= 1"))

/-- `hueList: z.array(z.number().min(0).max(360)).optional()`. -/
def pHueList : JParse (Option (List ℚ)) :=
  zOptional (zArrayOf (zCheck zNum (fun q => decide (0 ≤ q) && decide (q ≤ 360)) "Expected 0..360"))

/-- `RangeTuple.optional()` with `RangeTuple = z.tuple([norm01,
norm01])`, used for both `sRange` and `lRange`. -/
def pRangeOpt : JParse (Option (ℚ × ℚ)) :=
  zOptional (zTuple2 norm01 norm01)

/-- The four recognized curve methods of the `curveMethod` enum. -/
def curveMethodEnum : List String := ["lamé", "sine", "power", "linear"]

/-- `curveMethod: z.enum(['lamé', 'sine', 'power', 'linear']).optional()`. -/
def pCurveMethod : JParse (Option String) :=
  zOptional (zEnum curveMethodEnum)

/-- `curveAccent: z.number().min(0).max(5).optional()`. -/
def pCurveAccent : JParse (Option ℚ) :=
  zOptional (zCheck zNum (fun q => decide (0 ≤ q) && decide (q ≤ 5)) "Expected 0..5")

/-- `Format.optional()` with `Format = z.enum(['array', 'css-hsl',
'css-oklch', 'css']).default('array').transform(f => f === 'css' ?
'css-hsl' : f)` — again `.optional()` wraps the default and the
transform. -/
def pFormat : JParse (Option String) :=
  zOptional (zMap (fun f => if f = "css" then "css-hsl" else f)
    (zDefault (.str "array") (zEnum ["array", "css-hsl", "css-oklch", "css"])))

/-- `z.object({ ...RampBase, ...CurveExtra, ...FormatOpt }).parse(raw)`
for the `generate` tool: requires a JS object, reads exactly the
declared keys (absent keys read as `undefined`), and — zod's default
"strip" mode — never inspects or rejects undeclared keys. -/
def parseGenerate : JParse GenerateArgs := fun raw =>
  match raw with
  | .obj fs => do
      let total ← pTotal (objGet fs "total")
      let hStart ← pHStart (objGet fs "hStart")
      let hStartCenter ← pHStartCenter (objGet fs "hStartCenter")
      let hCycles ← pHCycles (objGet fs "hCycles")
      let hueList ← pHueList (objGet fs "hueList")
      let sRange ← pRangeOpt (objGet fs "sRange")
      let lRange ← pRangeOpt (objGet fs "lRange")
      let curveMethod ← pCurveMethod (objGet fs "curveMethod")
      let curveAccent ← pCurveAccent (objGet fs "curveAccent")
      let format ← pFormat (objGet fs "format")
      .ok ⟨total, hStart, hStartCenter, hCycles, hueList, sRange, lRange,
           curveMethod, curveAccent, format⟩
  | _ => .error "Expected object"

/-- Canonical arguments of the `uniqueRandomHues` tool. -/
structure UniqueArgs where
  startHue : Option ℚ
  total : Option ℚ
  minHueDiffAngle : Option ℚ
deriving DecidableEq

/-- `startHue: z.number().min(0).max(360).optional()`. -/
def pStartHue : JParse (Option ℚ) :=
  zOptional (zCheck zNum (fun q => decide (0 ≤ q) && decide (q ≤ 360)) "Expected 0..360")

/-- `total: z.number().int().min(1).default(5).optional()` — the
`.optional()` wraps the `.default(5)`. -/
def pUniqueTotal : JParse (Option ℚ) :=
  zOptional (zDefault (.num 5)
    (zCheck zNum (fun q => q.den == 1 && decide (1 ≤ q)) "Expected integer >= 1"))

/-- `minHueDiffAngle: z.number().min(0).max(360).optional()`. -/
def pMinHueDiffAngle : JParse (Option ℚ) :=
  zOptional (zCheck zNum (fun q => decide (0 ≤ q) && decide (q ≤ 360)) "Expected 0..360")

/-- `z.object(this.parameters).parse(args)` for the `uniqueRandomHues`
tool (same strip-mode object semantics as `parseGenerate`). -/
def parseUnique : JParse UniqueArgs := fun raw =>
  match raw with
  | .obj fs => do
      let startHue ← pStartHue (objGet fs "startHue")
      let total ← pUniqueTotal (objGet fs "total")
      let minHueDiffAngle ← pMinHueDiffAngle (objGet fs "minHueDiffAngle")
      .ok ⟨startHue, total, minHueDiffAngle⟩
  | _ => .error "Expected object"

/-- The ramp-generation options object forwarded to the engine by the
`generate` handler: everything the destructuring `const { format =
'array', curveMethod, ...opts } = parsed` leaves in `...opts`. -/
structure GenOpts where
  total : ℚ
  hStart : Option ℚ
  hStartCenter : Option ℚ
  hCycles : Option ℚ
  hueList : Option (List ℚ)
  sRange : Option (ℚ × ℚ)
  lRange : Option (ℚ × ℚ)
  curveAccent : Option ℚ
deriving DecidableEq

/-- The `...opts` rest object of the `generate` handler's
destructuring: the parsed arguments minus `format` and
`curveMethod`. -/
def optsOf (p : GenerateArgs) : GenOpts :=
  ⟨p.total, p.hStart, p.hStartCenter, p.hCycles, p.hueList, p.sRange, p.lRange, p.curveAccent⟩

/-- Modelled from the spec: the external Color Engine (the `rampensau`
library), which is imported by the wrapper but absent from the
repository sources.  The spec's call contract (§6): `generateRamp(opts)
-> seq<[h,s,l]>`; `generateRampWithCurve(opts & curveSelector) ->
seq<[h,s,l]>`; `colorToCSS(tuple, space) -> string`; five named
array/curve utilities with positional-argument signatures, taken here
as functions of the full positional-argument list.  Per §4.4 the
curve-point primitive is curried: its first two positional parameters
construct a curve function, which is then invoked on the remaining
positional arguments.  Handlers are parameterised over this record, so
every theorem below holds for an arbitrary engine. -/
structure Engine where
  generateColorRamp : GenOpts → List JSValue
  generateColorRampWithCurve : GenOpts → String → List JSValue
  colorToCSS : JSValue → Option String → String
  shuffleArray : List JSValue → JSValue
  lerp : List JSValue → JSValue
  scaleSpreadArray : List JSValue → JSValue
  pointOnCurve : JSValue → JSValue → List JSValue → JSValue
  makeCurveEasings : List JSValue → JSValue

/-- JavaScript truthiness of the destructured `curveMethod` value: the
field is either absent (`undefined`, falsy) or a string (falsy exactly
when empty). -/
def jsTruthyStr (s : Option String) : Bool :=
  match s with
  | none => false
  | some s => !(s == "")

/-- Body of the `generate` handler after parsing: `const ramp =
curveMethod ? generateColorRampWithCurve({ ...opts, curveMethod }) :
generateColorRamp(opts)` followed by `const out = format === 'array' ?
ramp : ramp.map(c => colorToCSS(c, format === 'css-hsl' ? 'hsl' :
'oklch'))`, with the destructuring default `format = 'array'`. -/
def genBody (E : Engine) (p : GenerateArgs) : JSValue :=
  let fmt := p.format.getD "array"
  let ramp :=
    if jsTruthyStr p.curveMethod then
      E.generateColorRampWithCurve (optsOf p) (p.curveMethod.getD "")
    else
      E.generateColorRamp (optsOf p)
  if fmt = "array" then .arr ramp
  else .arr (ramp.map (fun c => .str (E.colorToCSS c (some (if fmt = "css-hsl" then "hsl" else "oklch")))))

/-- The `generate` tool's `execute(raw)`: validate the raw arguments
with the zod object schema (a zod failure throws, here `Except.error`),
run the handler body, wrap in the response envelope. -/
def generateExecute (E : Engine) : JParse JSValue := fun raw =>
  (parseGenerate raw).map (fun p => asResult (genBody E p))

/-- `color: z.array(z.number()).length(3)` of the `toCSS` tool: an
array of numbers of length exactly 3, passed through to the handler
unchanged. -/
def parseColor3 : JParse JSValue := fun v =>
  match v with
  | .arr xs =>
      if (xs.all fun x => match x with | .num _ => true | _ => false) && xs.length == 3
      then .ok (.arr xs)
      else .error "Expected array of 3 numbers"
  | _ => .error "Expected array"

/-- The nine spellings accepted by the `toCSS` tool's `mode` enum. -/
def modeEnum : List String :=
  ["hsl", "hsv", "lch", "oklch", "css", "css-hsl", "css-hsv", "css-lch", "css-oklch"]

/-- The `mode` transform of the `toCSS` tool: `css` and `css-hsl`
resolve to `hsl`, `css-hsv` to `hsv`, `css-lch` to `lch`, `css-oklch`
to `oklch`, and the four base spellings pass through. -/
def resolveModeAlias (m : String) : String :=
  if m = "css" ∨ m = "css-hsl" then "hsl"
  else if m = "css-hsv" then "hsv"
  else if m = "css-lch" then "lch"
  else if m = "css-oklch" then "oklch"
  else m

/-- The `toCSS` tool's `mode` schema:
`z.enum([...]).default('oklch').transform(...).optional()` — the
`.optional()` is the outermost wrapper, applied after `.default` and
`.transform`. -/
def parseMode : JParse (Option String) :=
  zOptional (zMap resolveModeAlias (zDefault (.str "oklch") (zEnum modeEnum)))

/-- Modelled from the spec: the Dispatcher (§4.3) — implemented by
`generic-spec-server.js`, which is not among the repository sources —
validates the raw argument object field-by-field against the `toCSS`
tool's declared parameter schema and invokes the handler `execute({
color, mode }) { return asResult(colorToCSS(color, mode)); }` on the
canonical arguments.  The schemas and the handler themselves are from
the source. -/
def dispatchToCSS (E : Engine) : JParse JSValue := fun raw =>
  match raw with
  | .obj fs => do
      let color ← parseColor3 (objGet fs "color")
      let mode ← parseMode (objGet fs "mode")
      .ok (asResult (.str (E.colorToCSS color mode)))
  | _ => .error "Expected object"

/-- `Color3 = z.array(z.number()).length(3)` of the palette-capable
`toCSS` variant (`rampensau.mcp.js`, safe wrapper): is the value an
array of exactly three numbers? -/
def isColor3 (v : JSValue) : Bool :=
  match v with
  | .arr xs => (xs.all fun x => match x with | .num _ => true | _ => false) && xs.length == 3
  | _ => false

/-- `Palette = z.union([Color3, z.array(Color3)])` of the
palette-capable `toCSS` variant: zod tries the union branches in
order, so a single 3-number tuple validates as `Color3` and otherwise
the value must be an array of 3-number tuples (possibly empty).  The
validated value passes through unchanged. -/
def parsePalette : JParse JSValue := fun v =>
  if isColor3 v then .ok v
  else
    match v with
    | .arr xs => if xs.all isColor3 then .ok v else .error "Invalid palette"
    | _ => .error "Invalid palette"

/-- `Array.isArray(x)`. -/
def isArrayVal (v : JSValue) : Bool :=
  match v with
  | .arr _ => true
  | _ => false

/-- The palette-capable `toCSS` handler body (`rampensau.mcp.js`, safe
wrapper): `const toCss = (c) => colorToCSS(c, mode); const res =
Array.isArray(color[0]) ? color.map(toCss) : toCss(color);` — the
returned payload before envelope wrapping.  `color[0]` on a JS array
is its first element or `undefined` when empty. -/
def v0ToCSSBody (E : Engine) (color : JSValue) (mode : String) : JSValue :=
  let toCss := fun c => JSValue.str (E.colorToCSS c (some mode))
  match color with
  | .arr xs =>
      if isArrayVal (xs.getD 0 .undefined) then .arr (xs.map toCss) else toCss color
  | _ => toCss color

/-- The five recognized `fn` names of the `utils` tool. -/
def utilsEnum : List String :=
  ["shuffle", "lerp", "scaleSpread", "curvePoint", "curveEasings"]

/-- The member names every plain JavaScript object literal inherits
from `Object.prototype`, all of which a property read `map[fn]`
finds — and all of which are truthy (eleven functions plus the
`__proto__` accessor, whose read yields `Object.prototype`, an
object). -/
def objectProtoMembers : List String :=
  ["constructor", "hasOwnProperty", "isPrototypeOf", "propertyIsEnumerable",
   "toLocaleString", "toString", "valueOf",
   "__defineGetter__", "__defineSetter__", "__lookupGetter__", "__lookupSetter__",
   "__proto__"]

mutual

/-- JavaScript `ToString` of a value used as a property key / method
argument: `undefined`/`null`/booleans print literally, numbers via
`numRepr` (the same numeral-rendering stand-in as the serializer),
arrays join their elements with commas (`Array.prototype.toString`,
with `undefined` and `null` elements printing empty), objects print
`[object Object]`. -/
def jsPropKey : JSValue → String
  | .undefined => "undefined"
  | .null => "null"
  | .bool b => cond b "true" "false"
  | .num q => numRepr q
  | .str s => s
  | .arr xs => jsArrKey xs
  | .obj _ => "[object Object]"

/-- Comma-joined element rendering for `Array.prototype.toString`. -/
def jsArrKey : List JSValue → String
  | [] => ""
  | [x] =>
    match x with
    | .undefined => ""
    | .null => ""
    | v => jsPropKey v
  | x :: xs =>
    (match x with
     | .undefined => ""
     | .null => ""
     | v => jsPropKey v) ++ "," ++ jsArrKey xs

end

/-- The result of `map[fn](...args)` when `fn` names an inherited
`Object.prototype` member of the handler's dispatch-table object
literal `map` (whose five own properties are the function values keyed
`shuffle`, `lerp`, `scaleSpread`, `curvePoint`, `curveEasings`):
* `toString` / `toLocaleString` return the string `[object Object]`;
* `valueOf` returns `map` itself; `map`'s five members are function
  values, which this `JSValue` universe cannot carry, so the value is
  stood in for by the empty object — observationally equal here, since
  the only use of the value is `JSON.stringify` in `asResult`, which
  drops function-valued members and prints both as the same two
  braces;
* `hasOwnProperty` / `propertyIsEnumerable` test the string-coerced
  first argument against `map`'s five own (enumerable) keys;
* `isPrototypeOf` is false for every argument expressible as a
  `JSValue` (no wire value has `map` in its prototype chain);
* `constructor` is `Object`; called as a function it returns a fresh
  empty object on `undefined`/`null` and otherwise its argument
  (primitives become wrapper objects, which serialize like the
  primitive itself);
* `__defineGetter__` / `__defineSetter__` throw a `TypeError` because
  their second argument, a `JSValue`, is never callable;
* `__lookupGetter__` / `__lookupSetter__` return `undefined` for every
  key a `JSValue` argument can name except `__proto__`, whose
  inherited accessor they return; a function serializes in `asResult`
  exactly like `undefined`, so `undefined` stands in for it;
* reading `__proto__` yields `Object.prototype`, which is not
  callable, so the call itself throws a `TypeError`. -/
def protoCall (fn : String) (args : List JSValue) : Except String JSValue :=
  if fn = "toString" ∨ fn = "toLocaleString" then .ok (.str "[object Object]")
  else if fn = "valueOf" then .ok (.obj [])
  else if fn = "hasOwnProperty" ∨ fn = "propertyIsEnumerable" then
    .ok (.bool (decide (jsPropKey (args.getD 0 .undefined) ∈ utilsEnum)))
  else if fn = "isPrototypeOf" then .ok (.bool false)
  else if fn = "constructor" then
    .ok (match args.getD 0 .undefined with
         | .undefined => .obj []
         | .null => .obj []
         | v => v)
  else if fn = "__defineGetter__" ∨ fn = "__defineSetter__" then
    .error "TypeError: getter/setter must be a function"
  else if fn = "__lookupGetter__" ∨ fn = "__lookupSetter__" then .ok .undefined
  else .error "TypeError: map[fn] is not a function"

/-- The property read `map[fn]` on the `utils` handler's dispatch-table
object literal, with JavaScript lookup semantics: the five own
properties are thunks spreading the positional `args` into one engine
primitive (the `curvePoint` entry is the curried two-stage call
`pointOnCurve(...args)(...args.slice(2))`: the spread into the
two-parameter `pointOnCurve` binds the first two positional arguments,
missing ones reading as `undefined`, and the returned curve function
is invoked on the arguments from index 2 on); a name that is not an
own property falls back to the prototype chain, where every
`Object.prototype` member is found truthy and its invocation is
`protoCall`; only names absent from both levels read as `undefined`
(`none`). -/
def utilsTable (E : Engine) (args : List JSValue) (fn : String) :
    Option (Unit → Except String JSValue) :=
  if fn = "shuffle" then some (fun _ => .ok (E.shuffleArray args))
  else if fn = "lerp" then some (fun _ => .ok (E.lerp args))
  else if fn = "scaleSpread" then some (fun _ => .ok (E.scaleSpreadArray args))
  else if fn = "curvePoint" then
    some (fun _ =>
      .ok (E.pointOnCurve (args.getD 0 .undefined) (args.getD 1 .undefined) (args.drop 2)))
  else if fn = "curveEasings" then some (fun _ => .ok (E.makeCurveEasings args))
  else if fn ∈ objectProtoMembers then some (fun _ => protoCall fn args)
  else none

/-- The `utils` handler: `if (!map[fn]) throw new Error(...); return
asResult(map[fn]());` — the guard throws the unknown-fn error only when
the property read produces a falsy value (for `map` that means a name
found neither among the five own keys nor on `Object.prototype`);
otherwise the looked-up member is invoked and its result, if the call
returns normally, is wrapped by `asResult`. -/
def utilsExecute (E : Engine) (fn : String) (args : List JSValue) : Except String JSValue :=
  match utilsTable E args fn with
  | none => .error ("utils: unknown fn \"" ++ fn ++ "\"")
  | some g => (g ()).map asResult

/-- A concrete engine used to instantiate universally-quantified
theorems at closed inputs.  Its behaviour is arbitrary; no theorem
depends on it. -/
def stubEngine : Engine where
  generateColorRamp := fun _ => []
  generateColorRampWithCurve := fun _ _ => []
  colorToCSS := fun _ _ => "css"
  shuffleArray := fun _ => .null
  lerp := fun _ => .null
  scaleSpreadArray := fun _ => .null
  pointOnCurve := fun _ _ _ => .null
  makeCurveEasings := fun _ => .null

/-- Inversion for `Except` bind: a successful chained computation
factors through a successful first step. -/
theorem exbind_ok {α β : Type} {e : Except String α} {f : α → Except String β} {b : β}
    (h : e >>= f = .ok b) : ∃ a, e = .ok a ∧ f a = .ok b := by
  cases e with
  | error _ => simp [Bind.bind, Except.bind] at h
  | ok a => exact ⟨a, rfl, by simpa [Bind.bind, Except.bind] using h⟩

/-- A successful `generate` parse determines every field through its
declared field schema: the canonical value of each field is exactly
what the field's own parser produced on the raw object's corresponding
property. -/
theorem parseGenerate_fields {fs : List (String × JSValue)} {p : GenerateArgs}
    (h : parseGenerate (.obj fs) = .ok p) :
    pTotal (objGet fs "total") = .ok p.total ∧
    pHStart (objGet fs "hStart") = .ok p.hStart ∧
    pHStartCenter (objGet fs "hStartCenter") = .ok p.hStartCenter ∧
    pHCycles (objGet fs "hCycles") = .ok p.hCycles ∧
    pHueList (objGet fs "hueList") = .ok p.hueList ∧
    pRangeOpt (objGet fs "sRange") = .ok p.sRange ∧
    pRangeOpt (objGet fs "lRange") = .ok p.lRange ∧
    pCurveMethod (objGet fs "curveMethod") = .ok p.curveMethod ∧
    pCurveAccent (objGet fs "curveAccent") = .ok p.curveAccent ∧
    pFormat (objGet fs "format") = .ok p.format := by
  simp only [parseGenerate] at h
  obtain ⟨a1, h1, h⟩ := exbind_ok h
  obtain ⟨a2, h2, h⟩ := exbind_ok h
  obtain ⟨a3, h3, h⟩ := exbind_ok h
  obtain ⟨a4, h4, h⟩ := exbind_ok h
  obtain ⟨a5, h5, h⟩ := exbind_ok h
  obtain ⟨a6, h6, h⟩ := exbind_ok h
  obtain ⟨a7, h7, h⟩ := exbind_ok h
  obtain ⟨a8, h8, h⟩ := exbind_ok h
  obtain ⟨a9, h9, h⟩ := exbind_ok h
  obtain ⟨a10, h10, h⟩ := exbind_ok h
  cases h
  exact ⟨h1, h2, h3, h4, h5, h6, h7, h8, h9, h10⟩

/-- A validated `curveMethod` is either absent or one of the four
declared enum spellings. -/
theorem pCurveMethod_ok {v : JSValue} {r : Option String}
    (h : pCurveMethod v = .ok r) :
    r = none ∨ ∃ s, r = some s ∧ s ∈ curveMethodEnum := by
  simp only [pCurveMethod, zOptional] at h
  cases v with
  | undefined =>
      left
      cases h
      rfl
  | str s =>
      simp only [zEnum, Except.map] at h
      by_cases hm : s ∈ curveMethodEnum
      · right
        rw [if_pos hm] at h
        cases h
        exact ⟨s, rfl, hm⟩
      · rw [if_neg hm] at h
        cases h
  | null => cases h
  | bool b => cases h
  | num q => cases h
  | arr xs => cases h
  | obj fs => cases h

/-- C1.  For every tool in the registry and every handler result value,
the returned response is an envelope whose `content` field is a
sequence of exactly one item; that item has type `"text"`, and its
text is the handler result verbatim when that result is a string, and
otherwise is the deterministic JSON serialization of the result with
two-space indentation (`jsonStringifyJS`, the model of
`JSON.stringify(_, null, 2)`). -/
theorem c1_envelope_shape (data : JSValue) :
    ∃ t, asResult data =
        .obj [("content", .arr [.obj [("type", .str "text"), ("text", t)]])] ∧
      (∀ s, data = .str s → t = .str s) ∧
      ((∀ s, data ≠ .str s) → t = jsonStringifyJS data) := by
  cases data with
  | str s =>
      refine ⟨.str s, rfl, ?_, ?_⟩
      · intro s' hs
        cases hs
        rfl
      · intro hns
        exact absurd rfl (hns s)
  | undefined =>
      exact ⟨jsonStringifyJS .undefined, rfl,
        ⟨fun _ hs => JSValue.noConfusion hs, fun _ => rfl⟩⟩
  | null =>
      exact ⟨jsonStringifyJS .null, rfl,
        ⟨fun _ hs => JSValue.noConfusion hs, fun _ => rfl⟩⟩
  | bool b =>
      exact ⟨jsonStringifyJS (.bool b), rfl,
        ⟨fun _ hs => JSValue.noConfusion hs, fun _ => rfl⟩⟩
  | num q =>
      exact ⟨jsonStringifyJS (.num q), rfl,
        ⟨fun _ hs => JSValue.noConfusion hs, fun _ => rfl⟩⟩
  | arr xs =>
      exact ⟨jsonStringifyJS (.arr xs), rfl,
        ⟨fun _ hs => JSValue.noConfusion hs, fun _ => rfl⟩⟩
  | obj fs =>
      exact ⟨jsonStringifyJS (.obj fs), rfl,
        ⟨fun _ hs => JSValue.noConfusion hs, fun _ => rfl⟩⟩

/-- Witness for C1 at the non-string result `[1]` and the string result
`"hi"`. -/
theorem c1_envelope_shape_witness :
    (∃ t, asResult (.arr [.num 1]) =
        .obj [("content", .arr [.obj [("type", .str "text"), ("text", t)]])] ∧
      t = jsonStringifyJS (.arr [.num 1])) ∧
    (∃ t, asResult (.str "hi") =
        .obj [("content", .arr [.obj [("type", .str "text"), ("text", t)]])] ∧
      t = .str "hi") := by
  constructor
  · obtain ⟨t, h1, _, h3⟩ := c1_envelope_shape (.arr [.num 1])
    exact ⟨t, h1, h3 (fun s hs => by cases hs)⟩
  · obtain ⟨t, h1, h2, _⟩ := c1_envelope_shape (.str "hi")
    exact ⟨t, h1, h2 "hi" rfl⟩

/-- C4.  For every number `v` with `0 ≤ v ≤ 100`, `norm01` accepts `v`
and returns a value in `[0, 1]`: `v` unchanged when `v ≤ 1`, `v / 100`
when `v > 1`; for every `v` outside `[0, 100]` — in particular `-1`
and `101` — it fails with the constraint-violation error instead of
returning a value. -/
theorem c4_norm01 :
    (∀ v : ℚ, 0 ≤ v → v ≤ 100 →
      ∃ w, norm01 (.num v) = .ok w ∧ 0 ≤ w ∧ w ≤ 1 ∧
        (v ≤ 1 → w = v) ∧ (1 < v → w = v / 100)) ∧
    norm01 (.num (-1)) = .error "must be between 0 and 100" ∧
    norm01 (.num 101) = .error "must be between 0 and 100" ∧
    (∀ v : ℚ, v < 0 ∨ 100 < v → norm01 (.num v) = .error "must be between 0 and 100") := by
  refine ⟨?_, rfl, rfl, ?_⟩
  · intro v h0 h100
    have hck : (decide (0 ≤ v) && decide (v ≤ 100)) = true := by
      simp [h0, h100]
    by_cases h1 : 1 < v
    · refine ⟨v / 100, ?_, ?_, ?_, ?_, fun _ => rfl⟩
      · simp [norm01, zMap, zCheck, zNum, hck, Except.map, if_pos h1]
      · positivity
      · rw [div_le_one (by norm_num)]
        exact h100
      · intro hle
        exact absurd h1 (not_lt.mpr hle)
    · refine ⟨v, ?_, h0, not_lt.mp h1, fun _ => rfl, fun hgt => absurd hgt h1⟩
      simp [norm01, zMap, zCheck, zNum, hck, Except.map, if_neg h1]
  · intro v hv
    have hck : (decide (0 ≤ v) && decide (v ≤ 100)) = false := by
      rcases hv with hv | hv
      · simp [not_le.mpr hv]
      · simp [not_le.mpr hv]
    simp [norm01, zMap, zCheck, zNum, hck, Except.map]

/-- Witness for C4: `norm01` applied to the in-range inputs `50`
(percentage) and the out-of-range input `250`. -/
theorem c4_norm01_witness :
    (∃ w, norm01 (.num 50) = .ok w ∧ 0 ≤ w ∧ w ≤ 1 ∧
      ((50 : ℚ) ≤ 1 → w = 50) ∧ (1 < (50 : ℚ) → w = 50 / 100)) ∧
    norm01 (.num 250) = .error "must be between 0 and 100" := by
  exact ⟨c4_norm01.1 50 (by norm_num) (by norm_num),
         c4_norm01.2.2.2 250 (Or.inr (by norm_num))⟩

/-- Inserting a binding for a different key anywhere in a JS object's
field list leaves every other property read unchanged. -/
theorem objGet_middle_ne {pre post : List (String × JSValue)} {k k' : String} {v : JSValue}
    (h : k' ≠ k) : objGet (pre ++ (k, v) :: post) k' = objGet (pre ++ post) k' := by
  induction pre with
  | nil => simp [objGet, Ne.symm h]
  | cons kv rest ih =>
      obtain ⟨k0, v0⟩ := kv
      by_cases hk : k0 = k'
      · simp [objGet, hk]
      · simp [objGet, hk, ih]

/-- Counterexample to C2: validating the `generate` tool's arguments
against its declared schema with `z.object(...).parse` (zod's default
strip mode) accepts an argument object whose only field, `bogus`, is
not declared in the schema — the parse succeeds, with `bogus` silently
dropped and every declared field defaulted or absent, instead of
failing. -/
theorem c2_strict_counterexample :
    parseGenerate (.obj [("bogus", .num 7)]) =
      .ok ⟨10, none, none, none, none, none, none, none, none, none⟩ :=
  rfl

/-- C2 (amended).  For each tool that validates inside its handler
(`generate` and `uniqueRandomHues`), `z.object(...).parse` runs in
zod's default strip mode: a raw argument object carrying, at any
position, a field not declared in *that tool's* parameter schema
validates exactly as if that field were absent — the unknown field is
silently dropped, never rejected.  The two conjuncts have independent
hypotheses, so in particular a field declared only for the *other*
tool (such as `startHue` for `generate`, or `format` for
`uniqueRandomHues`) is covered. -/
theorem c2_unknown_fields_stripped :
    (∀ (pre post : List (String × JSValue)) (k : String) (v : JSValue),
      k ∉ ["total", "hStart", "hStartCenter", "hCycles", "hueList",
           "sRange", "lRange", "curveMethod", "curveAccent", "format"] →
      parseGenerate (.obj (pre ++ (k, v) :: post)) = parseGenerate (.obj (pre ++ post))) ∧
    (∀ (pre post : List (String × JSValue)) (k : String) (v : JSValue),
      k ∉ ["startHue", "total", "minHueDiffAngle"] →
      parseUnique (.obj (pre ++ (k, v) :: post)) = parseUnique (.obj (pre ++ post))) := by
  constructor
  · intro pre post k v hgen
    simp only [List.mem_cons, List.mem_singleton, not_or] at hgen
    obtain ⟨h1, h2, h3, h4, h5, h6, h7, h8, h9, h10⟩ := hgen
    simp only [parseGenerate,
      objGet_middle_ne (Ne.symm h1), objGet_middle_ne (Ne.symm h2),
      objGet_middle_ne (Ne.symm h3), objGet_middle_ne (Ne.symm h4),
      objGet_middle_ne (Ne.symm h5), objGet_middle_ne (Ne.symm h6),
      objGet_middle_ne (Ne.symm h7), objGet_middle_ne (Ne.symm h8),
      objGet_middle_ne (Ne.symm h9), objGet_middle_ne (Ne.symm h10.1)]
  · intro pre post k v huniq
    simp only [List.mem_cons, List.mem_singleton, not_or] at huniq
    obtain ⟨h11, h12, h13⟩ := huniq
    simp only [parseUnique,
      objGet_middle_ne (Ne.symm h11), objGet_middle_ne (Ne.symm h12),
      objGet_middle_ne (Ne.symm h13.1)]

/-- Witness for the amended C2: `generate` ignores an interposed
`startHue` field (declared only for `uniqueRandomHues`), and
`uniqueRandomHues` ignores a trailing `format` field (declared only
for `generate`). -/
theorem c2_unknown_fields_stripped_witness :
    parseGenerate (.obj ([] ++ ("startHue", .num 30) :: [("total", .num 5)])) =
      parseGenerate (.obj ([] ++ [("total", .num 5)])) ∧
    parseUnique (.obj ([("total", .num 5)] ++ ("format", .str "css") :: [])) =
      parseUnique (.obj ([("total", .num 5)] ++ [])) :=
  ⟨c2_unknown_fields_stripped.1 [] [("total", .num 5)] "startHue" (.num 30) (by decide),
   c2_unknown_fields_stripped.2 [("total", .num 5)] [] "format" (.str "css") (by decide)⟩

/-- Counterexample to C6: validating an argument object for `generate`
that omits both `total` and `hCycles` yields canonical arguments with
`total = 10` (the `.default(10)` fires) but with `hCycles` still
absent (`none`), not `hCycles = 1`: the `.optional()` wrapped around
`.default(1)` short-circuits on the missing field, so the declared
default `1` is never filled in. -/
theorem c6_hcycles_counterexample :
    (parseGenerate (.obj [])).map (fun p => (p.total, p.hCycles)) = .ok (10, none) ∧
    (Except.ok ((10 : ℚ), (none : Option ℚ)) : Except String (ℚ × Option ℚ)) ≠
      .ok (10, some 1) := by
  refine ⟨rfl, ?_⟩
  intro h
  cases h

/-- C6 (amended).  For the `generate` tool, validating an argument
object that omits `total` produces canonical arguments with `total =
10`; but validating an argument object that omits `hCycles` leaves
`hCycles` undefined (`none`) rather than filling in the declared
default `1`, because `hCycles`'s `.optional()` wraps its `.default(1)`
and short-circuits on the missing field — the hue-cycle default is
left to the Color Engine. -/
theorem c6_generate_defaults (fs : List (String × JSValue)) (p : GenerateArgs)
    (hp : parseGenerate (.obj fs) = .ok p) :
    (objGet fs "total" = .undefined → p.total = 10) ∧
    (objGet fs "hCycles" = .undefined → p.hCycles = none) := by
  obtain ⟨ht, _, _, hc, _⟩ := parseGenerate_fields hp
  constructor
  · intro hu
    rw [hu] at ht
    have h10 : pTotal .undefined = .ok 10 := rfl
    rw [h10] at ht
    exact (Except.ok.inj ht).symm
  · intro hu
    rw [hu] at hc
    have hn : pHCycles .undefined = .ok none := rfl
    rw [hn] at hc
    exact (Except.ok.inj hc).symm

/-- Witness for the amended C6 at the empty argument object. -/
theorem c6_generate_defaults_witness :
    GenerateArgs.total ⟨10, none, none, none, none, none, none, none, none, none⟩ = 10 ∧
    GenerateArgs.hCycles ⟨10, none, none, none, none, none, none, none, none, none⟩ = none :=
  ⟨(c6_generate_defaults [] ⟨10, none, none, none, none, none, none, none, none, none⟩ rfl).1 rfl,
   (c6_generate_defaults [] ⟨10, none, none, none, none, none, none, none, none, none⟩ rfl).2 rfl⟩

/-- The ramp selection as the spec states it for C5: with a curve
selector present in the validated arguments, the curve-aware generator
on the canonical options; otherwise the plain generator. -/
def specRamp (E : Engine) (p : GenerateArgs) : List JSValue :=
  match p.curveMethod with
  | some cm => E.generateColorRampWithCurve (optsOf p) cm
  | none => E.generateColorRamp (optsOf p)

/-- The CSS-converted ramp as the spec states it for C5: every tuple
mapped through the CSS converter in the resolved base color space
(`hsl` for `css-hsl`, `oklch` otherwise), preserving order. -/
def specCssOut (E : Engine) (fmt : String) (ramp : List JSValue) : List JSValue :=
  ramp.map fun c => .str (E.colorToCSS c (some (if fmt = "css-hsl" then "hsl" else "oklch")))

/-- A spelling of the curveMethod enum is never the empty string, so a
present validated `curveMethod` is JS-truthy. -/
theorem curveMethodEnum_ne_empty {s : String} (hmem : s ∈ curveMethodEnum) :
    (s == "") = false := by
  simp only [curveMethodEnum, List.mem_cons, List.mem_singleton] at hmem
  rcases hmem with h | h | h | h | h <;> first | (subst h; decide) | cases h

/-- C5.  For the `generate` tool over validated arguments: when a
curve selector is present the handler invokes
`generateColorRampWithCurve` with the canonical options, and otherwise
`generateColorRamp`; then, when the resolved format is `"array"` the
payload is the ramp unchanged, and otherwise the payload is the ramp
with every tuple mapped through `colorToCSS` in the resolved base
color space (`hsl` for `css-hsl`, `oklch` otherwise), preserving order
and length. -/
theorem c5_generate_handler (E : Engine) (raw : JSValue) (p : GenerateArgs)
    (hp : parseGenerate raw = .ok p) :
    generateExecute E raw =
      .ok (asResult
        (if p.format.getD "array" = "array" then .arr (specRamp E p)
         else .arr (specCssOut E (p.format.getD "array") (specRamp E p)))) ∧
    (specCssOut E (p.format.getD "array") (specRamp E p)).length = (specRamp E p).length := by
  have hobj : ∃ fs, raw = JSValue.obj fs := by
    cases raw <;> first | exact ⟨_, rfl⟩ | (exfalso; simp [parseGenerate] at hp)
  obtain ⟨fs, rfl⟩ := hobj
  obtain ⟨-, -, -, -, -, -, -, hcm, -, -⟩ := parseGenerate_fields hp
  have hbody : genBody E p =
      (if p.format.getD "array" = "array" then .arr (specRamp E p)
       else .arr (specCssOut E (p.format.getD "array") (specRamp E p))) := by
    rcases pCurveMethod_ok hcm with hnone | ⟨s, hsome, hmem⟩
    · simp [genBody, specRamp, specCssOut, hnone, jsTruthyStr]
    · simp [genBody, specRamp, specCssOut, hsome, jsTruthyStr,
        curveMethodEnum_ne_empty hmem]
  refine ⟨?_, by simp [specCssOut]⟩
  simp only [generateExecute, hp, Except.map]
  rw [hbody]

/-- Witness for C5 at the empty argument object (all defaults, no
curve selector, format `array`) over the concrete stub engine. -/
theorem c5_generate_handler_witness :
    generateExecute stubEngine (.obj []) = .ok (asResult (.arr [])) := by
  have h := (c5_generate_handler stubEngine (.obj [])
    ⟨10, none, none, none, none, none, none, none, none, none⟩ rfl).1
  simpa [specRamp, stubEngine, optsOf] using h

/-- A list of three numbers, injected as a JS array, satisfies the
`Color3` check. -/
theorem isColor3_map_num {t : List ℚ} (h : t.length = 3) :
    isColor3 (.arr (t.map .num)) = true := by
  rcases t with _ | ⟨a, _ | ⟨b, _ | ⟨c, _ | ⟨d, tl⟩⟩⟩⟩ <;> simp_all [isColor3]

/-- Counterexample to C3: the empty list `[]` is an ordered sequence
of 3-element numeric tuples (of length zero) and validates against the
`Palette` union (as `z.array(Color3)`), but the handler's
`Array.isArray(color[0])` test sees `undefined` and takes the
single-tuple branch, so the payload is a single CSS string rather than
the empty sequence of strings the claim requires. -/
theorem c3_empty_counterexample :
    parsePalette (.arr []) = .ok (.arr []) ∧
    v0ToCSSBody stubEngine (.arr []) "oklch" = .str "css" ∧
    JSValue.str "css" ≠ .arr [] :=
  ⟨rfl, rfl, fun h => JSValue.noConfusion h⟩

/-- C3 (amended).  For the palette-capable `toCSS` tool: a single
3-element numeric tuple as `color` validates and yields a single CSS
string; a *non-empty* ordered sequence of 3-element numeric tuples
validates and yields an ordered sequence of CSS strings of the same
length whose i-th element is the conversion of the i-th input tuple
(on the empty sequence the handler instead returns a single string,
see the counterexample). -/
theorem c3_tocss_shape (E : Engine) (m : String) :
    (∀ ns : List ℚ, ns.length = 3 →
      parsePalette (.arr (ns.map .num)) = .ok (.arr (ns.map .num)) ∧
      v0ToCSSBody E (.arr (ns.map .num)) m =
        .str (E.colorToCSS (.arr (ns.map .num)) (some m))) ∧
    (∀ ts : List (List ℚ), ts ≠ [] → (∀ t ∈ ts, t.length = 3) →
      parsePalette (.arr (ts.map fun t => .arr (t.map .num))) =
        .ok (.arr (ts.map fun t => .arr (t.map .num))) ∧
      v0ToCSSBody E (.arr (ts.map fun t => .arr (t.map .num))) m =
        .arr (ts.map fun t => .str (E.colorToCSS (.arr (t.map .num)) (some m))) ∧
      (ts.map fun t => JSValue.str (E.colorToCSS (.arr (t.map .num)) (some m))).length
        = ts.length) := by
  constructor
  · intro ns h3
    have hc3 := isColor3_map_num h3
    constructor
    · simp [parsePalette, hc3]
    · rcases ns with _ | ⟨a, _ | ⟨b, _ | ⟨c, _ | ⟨d, tl⟩⟩⟩⟩ <;> simp_all [v0ToCSSBody, isArrayVal]
  · intro ts hne hall
    have houter : isColor3 (.arr (ts.map fun t => .arr (t.map .num))) = false := by
      rcases ts with _ | ⟨t0, rest⟩
      · exact absurd rfl hne
      · simp [isColor3]
    have hinner : (ts.map fun t => JSValue.arr (t.map .num)).all isColor3 = true := by
      rw [List.all_eq_true]
      intro x hx
      rw [List.mem_map] at hx
      obtain ⟨t, ht, rfl⟩ := hx
      exact isColor3_map_num (hall t ht)
    refine ⟨?_, ?_, by simp⟩
    · simp [parsePalette, houter, hinner]
    · rcases ts with _ | ⟨t0, rest⟩
      · exact absurd rfl hne
      · simp [v0ToCSSBody, isArrayVal]

/-- Witness for the amended C3: a single tuple and a one-tuple
sequence over the stub engine. -/
theorem c3_tocss_shape_witness :
    v0ToCSSBody stubEngine (.arr [.num 200, .num 50, .num 50]) "hsl" = .str "css" ∧
    v0ToCSSBody stubEngine (.arr [.arr [.num 1, .num 2, .num 3]]) "hsl" = .arr [.str "css"] := by
  have h1 := ((c3_tocss_shape stubEngine "hsl").1 [200, 50, 50] rfl).2
  have h2 := ((c3_tocss_shape stubEngine "hsl").2 [[1, 2, 3]] (by simp) (by simp)).2.1
  constructor
  · simpa [stubEngine] using h1
  · simpa [stubEngine] using h2

/-- C7.  For the `utils` tool with `fn = "curvePoint"` and positional
args `[a, b, t, ...rest]`: the handler performs the two-stage curried
application in which the first two positional arguments construct the
curve function via `pointOnCurve` and the arguments from index 2
onward are then passed to that function to sample it.  Because the
engine's `pointOnCurve` is universally quantified here, the equation
pins the grouping exactly: first two build, remaining sample. -/
theorem c7_curvepoint_grouping (E : Engine) (a b t : JSValue) (rest : List JSValue) :
    utilsExecute E "curvePoint" (a :: b :: t :: rest) =
      .ok (asResult (E.pointOnCurve a b (t :: rest))) :=
  rfl

/-- C8 (code bug).  The claim says every `fn` outside the five
recognized names fails with the unknown-utility error before any
engine primitive is invoked.  At the failing input `fn = "toString"`
(a name outside the five, inherited from `Object.prototype`), the
property read `map[fn]` finds the inherited `toString` function, the
`!map[fn]` guard passes, and the handler — for every possible engine,
so no engine primitive is consulted — returns the envelope around the
string `[object Object]` instead of throwing the unknown-utility
error. -/
theorem c8_prototype_leak :
    "toString" ∉ utilsEnum ∧
    (∀ (E : Engine) (args : List JSValue),
      utilsExecute E "toString" args = .ok (asResult (.str "[object Object]"))) ∧
    (∀ (E : Engine) (args : List JSValue),
      utilsExecute E "toString" args ≠
        .error ("utils: unknown fn \"" ++ "toString" ++ "\"")) := by
  refine ⟨by decide, fun _ _ => rfl, fun E args h => ?_⟩
  rw [show utilsExecute E "toString" args = .ok (asResult (.str "[object Object]")) from rfl] at h
  exact Except.noConfusion h

/-- C9.  For every 3-element color tuple, dispatching the `toCSS` tool
with `mode = "css"` yields exactly the same response as dispatching it
with `mode = "hsl"`: the schema transform resolves both spellings to
the `hsl` base color space before the engine is called. -/
theorem c9_css_alias_same (E : Engine) (ns : List ℚ) (_h3 : ns.length = 3) :
    dispatchToCSS E (.obj [("color", .arr (ns.map .num)), ("mode", .str "css")]) =
      dispatchToCSS E (.obj [("color", .arr (ns.map .num)), ("mode", .str "hsl")]) := by
  have hcss : parseMode (.str "css") = .ok (some "hsl") := rfl
  have hhsl : parseMode (.str "hsl") = .ok (some "hsl") := rfl
  simp [dispatchToCSS, objGet, hcss, hhsl]

/-- Witness for C9 at the tuple `[200, 50, 50]` over the stub engine. -/
theorem c9_css_alias_same_witness :
    dispatchToCSS stubEngine (.obj [("color", .arr ([200, 50, 50].map .num)), ("mode", .str "css")]) =
      dispatchToCSS stubEngine (.obj [("color", .arr ([200, 50, 50].map .num)), ("mode", .str "hsl")]) :=
  c9_css_alias_same stubEngine [200, 50, 50] rfl

/-- C10.  For the `toCSS` tool, when the `mode` argument is omitted,
parsing against the declared schema yields `mode = undefined` rather
than the declared default `"oklch"` — the outermost `.optional()`
short-circuits the `.default('oklch')` and the transform — and the
handler then calls `colorToCSS` with `undefined` as the color
space. -/
theorem c10_mode_optional_shortcircuit (E : Engine) (c c' : JSValue)
    (hc : parseColor3 c = .ok c') :
    parseMode .undefined = .ok none ∧
    dispatchToCSS E (.obj [("color", c)]) = .ok (asResult (.str (E.colorToCSS c' none))) := by
  refine ⟨rfl, ?_⟩
  simp [dispatchToCSS, objGet, hc]
  rfl

/-- Witness for C10 at the tuple `[200, 50, 50]` over the stub
engine. -/
theorem c10_mode_optional_shortcircuit_witness :
    parseMode .undefined = .ok none ∧
    dispatchToCSS stubEngine (.obj [("color", .arr [.num 200, .num 50, .num 50])]) =
      .ok (asResult (.str (stubEngine.colorToCSS (.arr [.num 200, .num 50, .num 50]) none))) :=
  c10_mode_optional_shortcircuit stubEngine (.arr [.num 200, .num 50, .num 50])
    (.arr [.num 200, .num 50, .num 50]) rfl
